import Mathlib

/-!
Verification development for the taksihub driver-service core.

The Go sources are shallowly embedded as executable Lean functions:

* `models` (internal/models): `Location`, `Driver`, the request DTOs and
  their go-playground/validator `Validate` methods.  Machine floats for
  coordinates are modelled as rationals (the code only compares them);
  `time.Time` values are modelled as natural-number instants; Mongo
  ObjectIDs are modelled as natural numbers (hex round-trip elided).
* `repository` (internal/repository): the Mongo-backed repository over an
  explicit in-memory store (`Store := List Driver`).  The behaviour of the
  MongoDB pipeline stages that the repository issues ($geoNear, sort /
  skip / limit, the unique index on `plate`, UpdateOne/DeleteOne matching
  the first document) is spelled out as list operations; the great-circle
  distance computed by the server is an abstract parameter `dist`
  (in meters), as the code never computes it itself.
* `service` (the driverService business layer) and the error-status
  mapping of `handlers` (driver_handler.go).

Go errors are modelled by `GoErr`: the named sentinel errors of the
repository and service packages are constructors, `errors.New` /
`fmt.Errorf` without `%w` produce `GoErr.errNew`, and `fmt.Errorf` with
`%w` produces `GoErr.wrap`; `errorsIs` mirrors `errors.Is` (unwrap chain,
sentinel identity).
-/

namespace TaksiHub

/-! ## Data model (internal/models) -/

/-- models.Location: latitude/longitude pair (float64 fields modelled as ℚ). -/
structure Location where
  lat : ℚ
  lon : ℚ
deriving DecidableEq

/-- models.Driver: the aggregate root.  `id` models the Mongo ObjectID,
`createdAt`/`updatedAt` model the `time.Time` stamps as instants. -/
structure Driver where
  id        : Nat
  firstName : String
  lastName  : String
  plate     : String
  taxiType  : String
  carBrand  : String
  carModel  : String
  location  : Location
  createdAt : Nat
  updatedAt : Nat
deriving DecidableEq

/-- models.IsValidTaxiType: membership in the closed enum sari/turkuaz/siyah. -/
def IsValidTaxiType (taxiType : String) : Bool :=
  taxiType == "sari" || taxiType == "turkuaz" || taxiType == "siyah"

/-! ## Validation layer (internal/models/dto.go) -/

/-- Whitespace class of Go regexp `\s`: `[\t\n\f\r ]`. -/
def goIsSpace (c : Char) : Bool :=
  c == ' ' || c == '\t' || c == '\n' || c == '\r' || c == Char.ofNat 12

/-- ASCII digit, the regexp class `[0-9]`. -/
def isDigitChar (c : Char) : Bool := '0' ≤ c && c ≤ '9'

/-- ASCII letter, the regexp class `[A-Za-z]`. -/
def isLetterChar (c : Char) : Bool :=
  ('A' ≤ c && c ≤ 'Z') || ('a' ≤ c && c ≤ 'z')

/-- models.TurkishLicensePlateValidator: strip all whitespace, then match
the anchored pattern `^[0-9]{2}[A-Za-z]{1,3}[0-9]{1,4}$`.  Because the
digit and letter classes are disjoint, the anchored match is equivalent to
splitting the string into its leading runs. -/
def TurkishLicensePlateValidator (plate : String) : Bool :=
  let cs := plate.data.filter (fun c => !goIsSpace c)
  let d1 := cs.takeWhile isDigitChar
  let r1 := cs.dropWhile isDigitChar
  let ls := r1.takeWhile isLetterChar
  let r2 := r1.dropWhile isLetterChar
  let d2 := r2.takeWhile isDigitChar
  let r3 := r2.dropWhile isDigitChar
  d1.length == 2 && (1 ≤ ls.length && ls.length ≤ 3)
    && (1 ≤ d2.length && d2.length ≤ 4) && r3.isEmpty

/-- One validator field: the tags are checked in order and the first
failing tag is reported for the field (go-playground semantics). -/
def fieldErrs (field : String) (checks : List (String × Bool)) : List String :=
  match checks.find? (fun p => !p.2) with
  | some p => [field ++ ":" ++ p.1]
  | none => []

/-- An `omitempty` pointer field: a nil pointer skips every check. -/
def optFieldErrs {α : Type} (field : String) (v : Option α)
    (checks : α → List (String × Bool)) : List String :=
  match v with
  | none => []
  | some x => fieldErrs field (checks x)

/-- models.CreateDriverRequest. -/
structure CreateDriverRequest where
  firstName : String
  lastName  : String
  plate     : String
  taxiType  : String
  carBrand  : String
  carModel  : String
  lat       : ℚ
  lon       : ℚ
deriving DecidableEq

/-- models.CreateDriverRequest.Validate: the struct tags of dto.go.
Note go-playground `required` on a `string` fails exactly on `""`, and on
a `float64` fails exactly on the zero value `0`; `min`/`max` on a string
bound the rune count and on a number bound its value. -/
def CreateDriverRequest.Validate (r : CreateDriverRequest) : List String :=
  fieldErrs "first_name"
    [("required", r.firstName != ""),
     ("min", decide (2 ≤ r.firstName.length)),
     ("max", decide (r.firstName.length ≤ 50))] ++
  fieldErrs "last_name"
    [("required", r.lastName != ""),
     ("min", decide (2 ≤ r.lastName.length)),
     ("max", decide (r.lastName.length ≤ 50))] ++
  fieldErrs "plate"
    [("required", r.plate != ""),
     ("turkish_plate", TurkishLicensePlateValidator r.plate)] ++
  fieldErrs "taxi_type"
    [("required", r.taxiType != ""),
     ("oneof", IsValidTaxiType r.taxiType)] ++
  fieldErrs "car_brand"
    [("required", r.carBrand != ""),
     ("min", decide (2 ≤ r.carBrand.length)),
     ("max", decide (r.carBrand.length ≤ 30))] ++
  fieldErrs "car_model"
    [("required", r.carModel != ""),
     ("min", decide (1 ≤ r.carModel.length)),
     ("max", decide (r.carModel.length ≤ 30))] ++
  fieldErrs "lat"
    [("required", decide (r.lat ≠ 0)),
     ("min", decide (-90 ≤ r.lat)),
     ("max", decide (r.lat ≤ 90))] ++
  fieldErrs "lon"
    [("required", decide (r.lon ≠ 0)),
     ("min", decide (-180 ≤ r.lon)),
     ("max", decide (r.lon ≤ 180))]

/-- models.UpdateDriverRequest: every field optional (pointer), plate not
updatable through this path. -/
structure UpdateDriverRequest where
  firstName : Option String
  lastName  : Option String
  taxiType  : Option String
  carBrand  : Option String
  carModel  : Option String
  lat       : Option ℚ
  lon       : Option ℚ
deriving DecidableEq

/-- models.UpdateDriverRequest.Validate: `omitempty` per field, same
per-field constraints as creation when present (no `required` tags). -/
def UpdateDriverRequest.Validate (r : UpdateDriverRequest) : List String :=
  optFieldErrs "first_name" r.firstName (fun s =>
    [("min", decide (2 ≤ s.length)), ("max", decide (s.length ≤ 50))]) ++
  optFieldErrs "last_name" r.lastName (fun s =>
    [("min", decide (2 ≤ s.length)), ("max", decide (s.length ≤ 50))]) ++
  optFieldErrs "taxi_type" r.taxiType (fun s =>
    [("oneof", IsValidTaxiType s)]) ++
  optFieldErrs "car_brand" r.carBrand (fun s =>
    [("min", decide (2 ≤ s.length)), ("max", decide (s.length ≤ 30))]) ++
  optFieldErrs "car_model" r.carModel (fun s =>
    [("min", decide (1 ≤ s.length)), ("max", decide (s.length ≤ 30))]) ++
  optFieldErrs "lat" r.lat (fun x =>
    [("min", decide (-90 ≤ x)), ("max", decide (x ≤ 90))]) ++
  optFieldErrs "lon" r.lon (fun x =>
    [("min", decide (-180 ≤ x)), ("max", decide (x ≤ 180))])

/-- models.UpdateDriverRequest.HasLocation. -/
def UpdateDriverRequest.HasLocation (r : UpdateDriverRequest) : Bool :=
  r.lat.isSome && r.lon.isSome

/-- models.UpdateLocationRequest. -/
structure UpdateLocationRequest where
  lat : ℚ
  lon : ℚ
deriving DecidableEq

/-- models.UpdateLocationRequest.Validate: same tags as the coordinate
fields of creation, `required` included. -/
def UpdateLocationRequest.Validate (r : UpdateLocationRequest) : List String :=
  fieldErrs "lat"
    [("required", decide (r.lat ≠ 0)),
     ("min", decide (-90 ≤ r.lat)),
     ("max", decide (r.lat ≤ 90))] ++
  fieldErrs "lon"
    [("required", decide (r.lon ≠ 0)),
     ("min", decide (-180 ≤ r.lon)),
     ("max", decide (r.lon ≤ 180))]

/-! ## Go error values and errors.Is -/

/-- Go error values as the code produces and tests them.  The named
package-level sentinels of repository/errors.go and service/errors.go are
constructors; `errNew` is a fresh `errors.New`/`fmt.Errorf` (no `%w`), and
`wrap` is `fmt.Errorf` with `%w`.  `errors.Is` identity between distinct
`errors.New` values never arises in the embedded code paths (the targets
of every `errors.Is` call are sentinels). -/
inductive GoErr where
  | repoErrDriverNotFound
  | repoErrDriverAlreadyExists
  | repoErrInvalidID
  | svcErrDriverNotFound
  | svcErrDriverAlreadyExists
  | svcErrInvalidID
  | svcErrInvalidLocation
  | svcErrInvalidTaxiType
  | svcErrValidationFailed
  | errNew (msg : String)
  | wrap (msg : String) (inner : GoErr)
deriving DecidableEq

/-- errors.Is: walk the `%w` unwrap chain looking for the target. -/
def errorsIs : GoErr → GoErr → Bool
  | GoErr.wrap m inner, t => (GoErr.wrap m inner == t) || errorsIs inner t
  | e, t => e == t

/-- validator.ValidationErrors surfaced as a single error value. -/
def validationErrValue (errs : List String) : GoErr :=
  GoErr.errNew (String.intercalate "; " errs)

/-! ## Repository layer (internal/repository/driver_repository.go)

The Mongo collection is modelled as a list of documents.  `_id` carries a
unique index in MongoDB, and the code relies on a unique index over
`plate` (it translates `mongo.IsDuplicateKeyError`); `UpdateOne` and
`DeleteOne` affect the first matching document. -/

/-- The drivers collection. -/
abbrev Store := List Driver

/-- UpdateOne semantics: rewrite the first document matching the id. -/
def updateFirstById (st : Store) (id : Nat) (f : Driver → Driver) : Store :=
  match st with
  | [] => []
  | d :: rest =>
    if d.id == id then f d :: rest else d :: updateFirstById rest id f

/-- DeleteOne semantics: remove the first document matching the id. -/
def eraseFirstById (st : Store) (id : Nat) : Store :=
  match st with
  | [] => []
  | d :: rest =>
    if d.id == id then rest else d :: eraseFirstById rest id

/-- MongoDriverRepository.Create: stamp both timestamps with one `now`,
assign a fresh ObjectID if zero, insert; a plate collision with the unique
index yields the duplicate-key error message (a fresh error, not a
sentinel).  Returns the inserted id. -/
def MongoDriverRepository.Create (now fresh : Nat) (st : Store)
    (driver : Driver) : Except GoErr (Nat × Store) :=
  let d := { driver with createdAt := now, updatedAt := now }
  let d := if d.id == 0 then { d with id := fresh } else d
  if st.any (fun o => o.plate == d.plate) then
    .error (.errNew ("driver with plate " ++ d.plate ++ " already exists"))
  else
    .ok (d.id, st ++ [d])

/-- MongoDriverRepository.FindByID.  On a miss the code returns a fresh
`fmt.Errorf` message, not the `ErrDriverNotFound` sentinel. -/
def MongoDriverRepository.FindByID (st : Store) (id : Nat) :
    Except GoErr Driver :=
  match st.find? (fun o => o.id == id) with
  | some d => .ok d
  | none => .error (.errNew ("driver with ID " ++ toString id ++ " not found"))

/-- MongoDriverRepository.Update: `$set` of every field except `_id` and
`created_at`, on the first document matching the id; zero matches yield a
fresh not-found message; a plate collision with another document trips the
unique index. -/
def MongoDriverRepository.Update (now : Nat) (st : Store) (id : Nat)
    (driver : Driver) : Except GoErr Store :=
  if st.any (fun o => o.id == id) then
    if st.any (fun o => o.id != id && o.plate == driver.plate) then
      .error (.errNew ("driver with plate " ++ driver.plate ++ " already exists"))
    else
      .ok (updateFirstById st id (fun o =>
        { o with
          firstName := driver.firstName
          lastName  := driver.lastName
          plate     := driver.plate
          taxiType  := driver.taxiType
          carBrand  := driver.carBrand
          carModel  := driver.carModel
          location  := driver.location
          updatedAt := now }))
  else
    .error (.errNew ("driver with ID " ++ toString id ++ " not found"))

/-- Sort key of FindAll: `created_at` descending (newest first). -/
def byCreatedDesc (a b : Driver) : Bool := decide (b.createdAt ≤ a.createdAt)

/-- MongoDriverRepository.FindAll: normalize page/pageSize exactly as the
code does (page < 1 becomes 1; pageSize < 1 becomes the default 10;
pageSize > 100 is clamped to 100), count the whole collection, then fetch
the page sorted by creation time descending with skip/limit. -/
def MongoDriverRepository.FindAll (st : Store) (page pageSize : Int) :
    List Driver × Nat :=
  let page := if page < 1 then 1 else page
  let pageSize := if pageSize < 1 then 10
                  else if pageSize > 100 then 100 else pageSize
  let skip := ((page - 1) * pageSize).toNat
  let totalCount := st.length
  let sorted := st.mergeSort byCreatedDesc
  ((sorted.drop skip).take pageSize.toNat, totalCount)

/-- Modelled from the spec: the MongoDB `$geoNear` stage issued by
FindNearby is not code of this repository.  Per the spec it attaches the
great-circle distance from the query point (in meters, here the abstract
parameter `dist`), keeps documents within `maxDistance` meters, and
returns them sorted ascending by distance. -/
def geoNear (dist : Location → Location → ℚ) (st : Store)
    (center : Location) (maxDistanceMeters : ℚ) : List (Driver × ℚ) :=
  ((st.map (fun d => (d, dist d.location center))).filter
      (fun p => decide (p.2 ≤ maxDistanceMeters))).mergeSort
    (fun a b => decide (a.2 ≤ b.2))

/-- MongoDriverRepository.FindNearby: validate coordinates and radius,
run the pipeline `$geoNear` (max distance `radiusKm * 1000` meters), then
`$match` on `taxi_type` only when the type is non-empty AND valid, then
`$limit 50`, and convert each distance from meters to kilometers. -/
def MongoDriverRepository.FindNearby (dist : Location → Location → ℚ)
    (st : Store) (lat lon radiusKm : ℚ) (taxiType : String) :
    Except GoErr (List (Driver × ℚ)) :=
  if lat < -90 ∨ lat > 90 then .error (.errNew "invalid latitude value")
  else if lon < -180 ∨ lon > 180 then .error (.errNew "invalid longitude value")
  else if radiusKm ≤ 0 then .error (.errNew "radius must be positive")
  else
    let center : Location := ⟨lat, lon⟩
    let stage1 := geoNear dist st center (radiusKm * 1000)
    let stage2 := if taxiType != "" && IsValidTaxiType taxiType then
                    stage1.filter (fun p => p.1.taxiType == taxiType)
                  else stage1
    let stage3 := stage2.take 50
    .ok (stage3.map (fun p => (p.1, p.2 / 1000)))

/-- MongoDriverRepository.FindByPlate: the one repository path that does
return the `ErrDriverNotFound` sentinel. -/
def MongoDriverRepository.FindByPlate (st : Store) (plate : String) :
    Except GoErr Driver :=
  if plate == "" then .error (.errNew "plate cannot be empty")
  else
    match st.find? (fun o => o.plate == plate) with
    | some d => .ok d
    | none => .error .repoErrDriverNotFound

/-- MongoDriverRepository.Delete: DeleteOne, then a fresh not-found
message when nothing was removed. -/
def MongoDriverRepository.Delete (st : Store) (id : Nat) :
    Except GoErr Store :=
  if st.any (fun o => o.id == id) then .ok (eraseFirstById st id)
  else .error (.errNew ("driver with ID " ++ toString id ++ " not found"))

/-! ## Service layer (the driverService business-rule core) -/

/-- service.PaginatedResponse. -/
structure PaginatedResponse where
  data       : List Driver
  page       : Int
  pageSize   : Int
  totalCount : Nat
  totalPages : Nat
deriving DecidableEq

/-- driverService.CreateDriver: validate, build the Driver from the
request (ObjectID modelled by the fresh `oid` parameter, both timestamps
stamped `now`), delegate to the repository, wrap failures.  Returns the
result together with the store after the call. -/
def driverService.CreateDriver (now oid : Nat) (st : Store)
    (req : CreateDriverRequest) : Except GoErr Nat × Store :=
  if req.Validate.isEmpty then
    let driver : Driver :=
      { id := oid
        firstName := req.firstName
        lastName := req.lastName
        plate := req.plate
        taxiType := req.taxiType
        carBrand := req.carBrand
        carModel := req.carModel
        location := ⟨req.lat, req.lon⟩
        createdAt := now
        updatedAt := now }
    match MongoDriverRepository.Create now oid st driver with
    | .ok (driverID, stAfter) => (.ok driverID, stAfter)
    | .error e => (.error (.wrap "failed to create driver" e), st)
  else
    (.error (.wrap "validation failed" (validationErrValue req.Validate)), st)

/-- driverService.GetDriverByID: delegate to FindByID; the not-found
branch tests `errors.Is(err, repository.ErrDriverNotFound)`. -/
def driverService.GetDriverByID (st : Store) (id : Nat) :
    Except GoErr Driver :=
  match MongoDriverRepository.FindByID st id with
  | .ok d => .ok d
  | .error e =>
    if errorsIs e .repoErrDriverNotFound then
      .error (.errNew ("driver with ID " ++ toString id ++ " not found"))
    else
      .error (.wrap "failed to get driver" e)

/-- The field-by-field merge of driverService.UpdateDriver: each present
field overwrites the stored one; the location is replaced only when both
coordinates are present. -/
def mergeUpdate (existing : Driver) (req : UpdateDriverRequest) : Driver :=
  let d := existing
  let d := match req.firstName with
    | some v => { d with firstName := v } | none => d
  let d := match req.lastName with
    | some v => { d with lastName := v } | none => d
  let d := match req.taxiType with
    | some v => { d with taxiType := v } | none => d
  let d := match req.carBrand with
    | some v => { d with carBrand := v } | none => d
  let d := match req.carModel with
    | some v => { d with carModel := v } | none => d
  let d := match req.lat, req.lon with
    | some a, some b => { d with location := ⟨a, b⟩ }
    | _, _ => d
  d

/-- driverService.UpdateDriver: validate, fetch the stored driver, merge
the present fields, refresh the update timestamp unconditionally, write
back through the repository. -/
def driverService.UpdateDriver (now : Nat) (st : Store) (id : Nat)
    (req : UpdateDriverRequest) : Except GoErr Unit × Store :=
  if req.Validate.isEmpty then
    match MongoDriverRepository.FindByID st id with
    | .error e =>
      if errorsIs e .repoErrDriverNotFound then
        (.error (.errNew ("driver with ID " ++ toString id ++ " not found")), st)
      else
        (.error (.wrap "failed to find driver" e), st)
    | .ok existing =>
      let updated := { mergeUpdate existing req with updatedAt := now }
      match MongoDriverRepository.Update now st id updated with
      | .ok stAfter => (.ok (), stAfter)
      | .error e => (.error (.wrap "failed to update driver" e), st)
  else
    (.error (.wrap "validation failed" (validationErrValue req.Validate)), st)

/-- driverService.ListDrivers: clamp page to a minimum of 1, replace a
pageSize below 1 by the default 10, clamp a pageSize above 100 to 100,
fetch the page, and compute total pages as the ceiling of
totalCount / pageSize (math.Ceil over exact division). -/
def driverService.ListDrivers (st : Store) (page pageSize : Int) :
    PaginatedResponse :=
  let page := if page < 1 then 1 else page
  let pageSize := if pageSize < 1 then 10
                  else if pageSize > 100 then 100 else pageSize
  let res := MongoDriverRepository.FindAll st page pageSize
  let totalPages := (res.2 + pageSize.toNat - 1) / pageSize.toNat
  { data := res.1
    page := page
    pageSize := pageSize
    totalCount := res.2
    totalPages := totalPages }

/-- driverService.FindNearbyDrivers: range-check the coordinates and the
optional taxi type (fresh errors, not the service sentinels), then query
the repository with the fixed 5 km radius. -/
def driverService.FindNearbyDrivers (dist : Location → Location → ℚ)
    (st : Store) (lat lon : ℚ) (taxiType : String) :
    Except GoErr (List (Driver × ℚ)) :=
  if lat < -90 ∨ lat > 90 then
    .error (.errNew "invalid latitude: must be between -90 and 90")
  else if lon < -180 ∨ lon > 180 then
    .error (.errNew "invalid longitude: must be between -180 and 180")
  else if taxiType != "" && !IsValidTaxiType taxiType then
    .error (.errNew ("invalid taxi type: " ++ taxiType ++
      " (must be one of: sari, turkuaz, siyah)"))
  else
    let radiusKm : ℚ := 5
    match MongoDriverRepository.FindNearby dist st lat lon radiusKm taxiType with
    | .ok drivers => .ok drivers
    | .error e => .error (.wrap "failed to find nearby drivers" e)

/-- driverService.UpdateDriverLocation: validate, fetch, replace the
Location wholesale, refresh the update timestamp, write back. -/
def driverService.UpdateDriverLocation (now : Nat) (st : Store) (id : Nat)
    (req : UpdateLocationRequest) : Except GoErr Unit × Store :=
  if req.Validate.isEmpty then
    match MongoDriverRepository.FindByID st id with
    | .error e =>
      if errorsIs e .repoErrDriverNotFound then
        (.error (.errNew ("driver with ID " ++ toString id ++ " not found")), st)
      else
        (.error (.wrap "failed to find driver" e), st)
    | .ok existing =>
      let updated := { existing with
                       location := ⟨req.lat, req.lon⟩, updatedAt := now }
      match MongoDriverRepository.Update now st id updated with
      | .ok stAfter => (.ok (), stAfter)
      | .error e => (.error (.wrap "failed to update driver location" e), st)
  else
    (.error (.wrap "validation failed" (validationErrValue req.Validate)), st)

/-- driverService.DeleteDriver: existence check through FindByID first,
then the delete; both miss branches test the repository sentinel. -/
def driverService.DeleteDriver (st : Store) (id : Nat) :
    Except GoErr Unit × Store :=
  match MongoDriverRepository.FindByID st id with
  | .error e =>
    if errorsIs e .repoErrDriverNotFound then
      (.error (.errNew ("driver with ID " ++ toString id ++ " not found")), st)
    else
      (.error (.wrap "failed to find driver" e), st)
  | .ok _ =>
    match MongoDriverRepository.Delete st id with
    | .ok stAfter => (.ok (), stAfter)
    | .error e => (.error (.wrap "failed to delete driver" e), st)

/-! ## Handler error translation (internal/handlers/driver_handler.go) -/

/-- DriverHandler.CreateDriver error branch: 409 Conflict only when
`errors.Is(err, service.ErrDriverAlreadyExists)`, otherwise 500. -/
def DriverHandler.createStatus (e : GoErr) : Nat :=
  if errorsIs e .svcErrDriverAlreadyExists then 409 else 500

/-- DriverHandler.DeleteDriver error branch: 404 only when
`errors.Is(err, service.ErrDriverNotFound)`, otherwise 500. -/
def DriverHandler.deleteStatus (e : GoErr) : Nat :=
  if errorsIs e .svcErrDriverNotFound then 404 else 500

/-- DriverHandler.FindNearbyDrivers error branch: 400 only when
`errors.Is(err, service.ErrInvalidLocation)`, otherwise 500. -/
def DriverHandler.nearbyStatus (e : GoErr) : Nat :=
  if errorsIs e .svcErrInvalidLocation then 400 else 500

/-! ## Concrete inputs used by witnesses and counterexamples -/

/-- A fully valid creation request (the spec §8 example driver A). -/
def reqA : CreateDriverRequest :=
  { firstName := "Ali", lastName := "Kaya", plate := "34ABC123"
    taxiType := "sari", carBrand := "Toyota", carModel := "Corolla"
    lat := 41, lon := 29 }

/-- A valid creation request carrying the same plate as `reqA`. -/
def reqB : CreateDriverRequest :=
  { firstName := "Banu", lastName := "Demir", plate := "34ABC123"
    taxiType := "siyah", carBrand := "Honda", carModel := "Civic"
    lat := 41, lon := 29 }

/-- The empty partial update: no field present. -/
def reqNoField : UpdateDriverRequest :=
  { firstName := none, lastName := none, taxiType := none
    carBrand := none, carModel := none, lat := none, lon := none }

/-! ## Helper lemmas -/

/-- Projections of the field-level merge, by cases on which fields the
request carries. -/
theorem mergeUpdate_fields (e : Driver) (r : UpdateDriverRequest) :
    (mergeUpdate e r).id = e.id ∧
    (mergeUpdate e r).plate = e.plate ∧
    (mergeUpdate e r).createdAt = e.createdAt ∧
    (mergeUpdate e r).updatedAt = e.updatedAt ∧
    (mergeUpdate e r).firstName = r.firstName.getD e.firstName ∧
    (mergeUpdate e r).lastName = r.lastName.getD e.lastName ∧
    (mergeUpdate e r).taxiType = r.taxiType.getD e.taxiType ∧
    (mergeUpdate e r).carBrand = r.carBrand.getD e.carBrand ∧
    (mergeUpdate e r).carModel = r.carModel.getD e.carModel ∧
    (mergeUpdate e r).location =
      (if r.HasLocation then Location.mk (r.lat.getD 0) (r.lon.getD 0)
       else e.location) := by
  rcases r with ⟨f, l, t, b, m, la, lo⟩
  unfold mergeUpdate UpdateDriverRequest.HasLocation
  cases f <;> cases l <;> cases t <;> cases b <;> cases m <;>
    cases la <;> cases lo <;> simp

/-- Rewriting the updater below the first match. -/
theorem updateFirstById_congr (st : Store) (id : Nat)
    (f g : Driver → Driver) (old : Driver)
    (hfind : st.find? (fun o => o.id == id) = some old)
    (hfg : f old = g old) :
    updateFirstById st id f = updateFirstById st id g := by
  induction st with
  | nil => rfl
  | cons d rest ih =>
    by_cases h : (d.id == id) = true
    · rw [List.find?_cons_of_pos (p := fun (o : Driver) => o.id == id) _ h] at hfind
      obtain rfl : d = old := by injection hfind
      simp [updateFirstById, h, hfg]
    · rw [List.find?_cons_of_neg (p := fun (o : Driver) => o.id == id) _ h] at hfind
      simp only [updateFirstById, h]
      simp only [Bool.false_eq_true, if_false]
      rw [ih hfind]

/-- The repository insert hits the unique plate index when a stored plate
collides, producing the fresh duplicate-key message. -/
theorem Create_dup (now fresh : Nat) (st : Store) (driver : Driver)
    (hdup : (st.any fun o => o.plate == driver.plate) = true) :
    MongoDriverRepository.Create now fresh st driver =
      .error (.errNew ("driver with plate " ++ driver.plate ++ " already exists")) := by
  rcases driver with ⟨did, f, l, p, t, b, m, loc, c, u⟩
  simp only [MongoDriverRepository.Create]
  split <;> simp_all

/-- The repository insert succeeds and appends the stamped document when
no stored plate collides. -/
theorem Create_eq (now fresh : Nat) (st : Store) (driver : Driver)
    (hid : driver.id = fresh)
    (hplate : (st.any fun o => o.plate == driver.plate) = false) :
    MongoDriverRepository.Create now fresh st driver =
      .ok (fresh, st ++ [{ driver with createdAt := now, updatedAt := now }]) := by
  rcases driver with ⟨did, f, l, p, t, b, m, loc, c, u⟩
  simp only at hid
  subst hid
  simp only [MongoDriverRepository.Create]
  split <;> simp_all

/-! ## C1 -/

/-- C1: the claim says every in-range coordinate, including latitude 0 and
longitude 0, passes validation of creation and location-only update
requests.  The code puts go-playground `required` on the float64
coordinate fields, which fails exactly on the zero value, so an otherwise
valid request with latitude 0 (or longitude 0) is rejected, while nonzero
in-range coordinates are accepted. -/
theorem C1_zero_coordinates_rejected :
    ({ reqA with lat := 0 } : CreateDriverRequest).Validate = ["lat:required"] ∧
    ({ reqA with lon := 0 } : CreateDriverRequest).Validate = ["lon:required"] ∧
    (UpdateLocationRequest.mk 0 29).Validate = ["lat:required"] ∧
    (UpdateLocationRequest.mk 41 0).Validate = ["lon:required"] ∧
    reqA.Validate = [] ∧
    (UpdateLocationRequest.mk 41 29).Validate = [] :=
  ⟨rfl, rfl, rfl, rfl, rfl, rfl⟩

/-! ## C2 -/

/-- C2: a valid creation request whose plate is not stored succeeds, and
an immediate GetDriverByID on the returned identifier yields a driver
whose fields equal the request and whose two timestamps are both the
creation instant (hence equal). -/
theorem C2_create_then_get (now oid : Nat) (st : Store)
    (req : CreateDriverRequest)
    (hval : req.Validate = [])
    (hplate : ∀ o ∈ st, o.plate ≠ req.plate)
    (hfresh : ∀ o ∈ st, o.id ≠ oid) :
    ∃ stAfter, driverService.CreateDriver now oid st req = (.ok oid, stAfter) ∧
      ∃ d, driverService.GetDriverByID stAfter oid = .ok d ∧
        d.firstName = req.firstName ∧ d.lastName = req.lastName ∧
        d.plate = req.plate ∧ d.taxiType = req.taxiType ∧
        d.carBrand = req.carBrand ∧ d.carModel = req.carModel ∧
        d.location = Location.mk req.lat req.lon ∧
        d.createdAt = now ∧ d.updatedAt = now ∧
        d.createdAt = d.updatedAt := by
  have hany : (st.any fun o => o.plate == req.plate) = false :=
    List.any_eq_false.mpr (fun o ho => by simpa using hplate o ho)
  refine ⟨st ++ [⟨oid, req.firstName, req.lastName, req.plate, req.taxiType,
    req.carBrand, req.carModel, ⟨req.lat, req.lon⟩, now, now⟩], ?_,
    ⟨oid, req.firstName, req.lastName, req.plate, req.taxiType,
     req.carBrand, req.carModel, ⟨req.lat, req.lon⟩, now, now⟩, ?_,
    rfl, rfl, rfl, rfl, rfl, rfl, rfl, rfl, rfl, rfl⟩
  · simp only [driverService.CreateDriver, hval, List.isEmpty_nil, if_true]
    rw [Create_eq now oid st _ rfl hany]
  · have hnone : (st.find? fun o => o.id == oid) = none :=
      List.find?_eq_none.mpr (fun o ho => by simpa using hfresh o ho)
    simp [driverService.GetDriverByID, MongoDriverRepository.FindByID,
      List.find?_append, hnone]

/-- Witness for C2 at a concrete input: request `reqA` into the empty
store at instant 5 with fresh id 7. -/
theorem C2_create_then_get_witness :
    ∃ stAfter, driverService.CreateDriver 5 7 [] reqA = (.ok 7, stAfter) ∧
      ∃ d, driverService.GetDriverByID stAfter 7 = .ok d ∧
        d.firstName = reqA.firstName ∧ d.lastName = reqA.lastName ∧
        d.plate = reqA.plate ∧ d.taxiType = reqA.taxiType ∧
        d.carBrand = reqA.carBrand ∧ d.carModel = reqA.carModel ∧
        d.location = Location.mk reqA.lat reqA.lon ∧
        d.createdAt = 5 ∧ d.updatedAt = 5 ∧
        d.createdAt = d.updatedAt :=
  C2_create_then_get 5 7 [] reqA rfl (by simp) (by simp)

/-! ## C3 -/

/-- C3: the partial update merges exactly the present fields into the
stored driver: absent fields keep their stored values, the plate,
identifier, and creation timestamp are never touched, the location is
replaced only when both coordinates are present, and the last-update
timestamp is set to the call instant even when no field is present (the
request with all fields absent is an instance of this statement). -/
theorem C3_partial_update_frame (now : Nat) (st : Store) (id : Nat)
    (req : UpdateDriverRequest) (old : Driver)
    (hval : req.Validate = [])
    (hfind : st.find? (fun o => o.id == id) = some old)
    (hplate : ∀ o ∈ st, o.id ≠ id → o.plate ≠ old.plate) :
    driverService.UpdateDriver now st id req =
      (.ok (), updateFirstById st id (fun _ =>
        { id := old.id
          firstName := req.firstName.getD old.firstName
          lastName := req.lastName.getD old.lastName
          plate := old.plate
          taxiType := req.taxiType.getD old.taxiType
          carBrand := req.carBrand.getD old.carBrand
          carModel := req.carModel.getD old.carModel
          location := if req.HasLocation then
              Location.mk (req.lat.getD 0) (req.lon.getD 0)
            else old.location
          createdAt := old.createdAt
          updatedAt := now })) := by
  obtain ⟨hid', hpl', hcr', hup', hfn, hln, htt, hcb, hcm, hloc⟩ :=
    mergeUpdate_fields old req
  have hOldId : ((fun (o : Driver) => o.id == id) old) = true :=
    List.find?_some (p := fun (o : Driver) => o.id == id) hfind
  have hmatched : (st.any fun o => o.id == id) = true :=
    List.any_eq_true.mpr
      ⟨old, List.mem_of_find?_eq_some hfind, hOldId⟩
  have hconflict : (st.any fun o =>
      o.id != id && o.plate ==
        ({ mergeUpdate old req with updatedAt := now } : Driver).plate)
      = false := by
    rw [List.any_eq_false]
    intro o ho
    have : ({ mergeUpdate old req with updatedAt := now } : Driver).plate
        = old.plate := hpl'
    rw [this]
    by_cases hoid : o.id = id
    · simp [hoid]
    · simp only [Bool.and_eq_true, bne_iff_ne, ne_eq, beq_iff_eq, not_and]
      intro _
      exact hplate o ho hoid
  have hfg : (fun o => ({ o with
      firstName := ({ mergeUpdate old req with updatedAt := now } : Driver).firstName
      lastName  := ({ mergeUpdate old req with updatedAt := now } : Driver).lastName
      plate     := ({ mergeUpdate old req with updatedAt := now } : Driver).plate
      taxiType  := ({ mergeUpdate old req with updatedAt := now } : Driver).taxiType
      carBrand  := ({ mergeUpdate old req with updatedAt := now } : Driver).carBrand
      carModel  := ({ mergeUpdate old req with updatedAt := now } : Driver).carModel
      location  := ({ mergeUpdate old req with updatedAt := now } : Driver).location
      updatedAt := now })) old =
      ({ id := old.id
         firstName := req.firstName.getD old.firstName
         lastName := req.lastName.getD old.lastName
         plate := old.plate
         taxiType := req.taxiType.getD old.taxiType
         carBrand := req.carBrand.getD old.carBrand
         carModel := req.carModel.getD old.carModel
         location := if req.HasLocation then
             Location.mk (req.lat.getD 0) (req.lon.getD 0)
           else old.location
         createdAt := old.createdAt
         updatedAt := now } : Driver) := by
    simp [Driver.mk.injEq, hfn, hln, hpl', htt, hcb, hcm, hloc]
  have hfid : MongoDriverRepository.FindByID st id = .ok old := by
    simp [MongoDriverRepository.FindByID, hfind]
  have hupd : MongoDriverRepository.Update now st id
      ({ mergeUpdate old req with updatedAt := now }) =
      .ok (updateFirstById st id (fun o =>
        { o with
          firstName := ({ mergeUpdate old req with updatedAt := now } : Driver).firstName
          lastName  := ({ mergeUpdate old req with updatedAt := now } : Driver).lastName
          plate     := ({ mergeUpdate old req with updatedAt := now } : Driver).plate
          taxiType  := ({ mergeUpdate old req with updatedAt := now } : Driver).taxiType
          carBrand  := ({ mergeUpdate old req with updatedAt := now } : Driver).carBrand
          carModel  := ({ mergeUpdate old req with updatedAt := now } : Driver).carModel
          location  := ({ mergeUpdate old req with updatedAt := now } : Driver).location
          updatedAt := now })) := by
    simp [MongoDriverRepository.Update, hmatched, hconflict]
  simp only [driverService.UpdateDriver, hval, List.isEmpty_nil, if_true, hfid, hupd]
  exact congrArg (fun s => ((Except.ok () : Except GoErr Unit), s))
    (updateFirstById_congr st id _ _ old hfind hfg)

/-- The stored driver used by the C3 witness. -/
def driverA : Driver :=
  { id := 10, firstName := "Ali", lastName := "Kaya", plate := "34ABC123"
    taxiType := "sari", carBrand := "Toyota", carModel := "Corolla"
    location := ⟨41, 29⟩, createdAt := 1, updatedAt := 1 }

/-- Witness for C3 at a concrete input: the spec §8 scenario, updating
only the taxi type of the stored driver A. -/
theorem C3_partial_update_frame_witness :
    driverService.UpdateDriver 9 [driverA] 10
        { reqNoField with taxiType := some "turkuaz" } =
      (.ok (), updateFirstById [driverA] 10 (fun _ =>
        { id := driverA.id
          firstName := (({ reqNoField with taxiType := some "turkuaz" }
            : UpdateDriverRequest)).firstName.getD driverA.firstName
          lastName := (({ reqNoField with taxiType := some "turkuaz" }
            : UpdateDriverRequest)).lastName.getD driverA.lastName
          plate := driverA.plate
          taxiType := (({ reqNoField with taxiType := some "turkuaz" }
            : UpdateDriverRequest)).taxiType.getD driverA.taxiType
          carBrand := (({ reqNoField with taxiType := some "turkuaz" }
            : UpdateDriverRequest)).carBrand.getD driverA.carBrand
          carModel := (({ reqNoField with taxiType := some "turkuaz" }
            : UpdateDriverRequest)).carModel.getD driverA.carModel
          location := if (({ reqNoField with taxiType := some "turkuaz" }
              : UpdateDriverRequest)).HasLocation then
              Location.mk ((({ reqNoField with taxiType := some "turkuaz" }
                : UpdateDriverRequest)).lat.getD 0)
                ((({ reqNoField with taxiType := some "turkuaz" }
                : UpdateDriverRequest)).lon.getD 0)
            else driverA.location
          createdAt := driverA.createdAt
          updatedAt := 9 })) :=
  C3_partial_update_frame 9 [driverA] 10
    { reqNoField with taxiType := some "turkuaz" } driverA rfl rfl
    (by intro o ho hne; simp at ho; simp [ho, driverA] at hne)

/-! ## C4 -/

/-- C4: on a duplicate plate the second creation does fail and the store
keeps only the first driver (the count never includes the rejected
duplicate), but the failure is NOT classified as a Conflict: the
repository returns a fresh `fmt.Errorf` instead of (wrapping) the
`ErrDriverAlreadyExists` sentinel, so the handler's `errors.Is` Conflict
branch never fires and the error surfaces as an unclassified 500. -/
theorem C4_duplicate_plate_not_conflict (now1 now2 oid1 oid2 : Nat)
    (st : Store) (req1 req2 : CreateDriverRequest)
    (hval1 : req1.Validate = []) (hval2 : req2.Validate = [])
    (hsame : req2.plate = req1.plate)
    (hfree : ∀ o ∈ st, o.plate ≠ req1.plate) :
    ∃ st1, driverService.CreateDriver now1 oid1 st req1 = (.ok oid1, st1) ∧
      st1.length = st.length + 1 ∧
      ∃ e, driverService.CreateDriver now2 oid2 st1 req2 = (.error e, st1) ∧
        errorsIs e GoErr.svcErrDriverAlreadyExists = false ∧
        DriverHandler.createStatus e = 500 ∧
        (driverService.ListDrivers st1 1 10).totalCount = st.length + 1 := by
  have hany : (st.any fun o => o.plate == req1.plate) = false :=
    List.any_eq_false.mpr (fun o ho => by simpa using hfree o ho)
  refine ⟨st ++ [⟨oid1, req1.firstName, req1.lastName, req1.plate,
    req1.taxiType, req1.carBrand, req1.carModel, ⟨req1.lat, req1.lon⟩,
    now1, now1⟩], ?_, by simp, ?_⟩
  · simp only [driverService.CreateDriver, hval1, List.isEmpty_nil, if_true]
    rw [Create_eq now1 oid1 st _ rfl hany]
  · have hdup : ((st ++ [(⟨oid1, req1.firstName, req1.lastName, req1.plate,
        req1.taxiType, req1.carBrand, req1.carModel, ⟨req1.lat, req1.lon⟩,
        now1, now1⟩ : Driver)]).any fun o => o.plate == req2.plate) = true :=
      List.any_eq_true.mpr ⟨_, List.mem_append_right st (List.mem_singleton.mpr rfl),
        by simpa using hsame.symm⟩
    refine ⟨.wrap "failed to create driver"
      (.errNew ("driver with plate " ++ req2.plate ++ " already exists")), ?_, rfl, rfl, ?_⟩
    · simp only [driverService.CreateDriver, hval2, List.isEmpty_nil, if_true]
      rw [Create_dup now2 oid2 _ _ hdup]
    · simp [driverService.ListDrivers, MongoDriverRepository.FindAll]

/-- Witness for C4 at a concrete input: `reqA` then `reqB`, which carry
the same plate, into the empty store. -/
theorem C4_duplicate_plate_not_conflict_witness :
    ∃ st1, driverService.CreateDriver 1 10 [] reqA = (.ok 10, st1) ∧
      st1.length = 1 ∧
      ∃ e, driverService.CreateDriver 2 11 st1 reqB = (.error e, st1) ∧
        errorsIs e GoErr.svcErrDriverAlreadyExists = false ∧
        DriverHandler.createStatus e = 500 ∧
        (driverService.ListDrivers st1 1 10).totalCount = 1 :=
  C4_duplicate_plate_not_conflict 1 2 10 11 [] reqA reqB rfl rfl rfl (by simp)

/-! ## C5 -/

/-- C5: deleting a missing id fails after the existence check, never as a
success, and the store is untouched — but the failure is NOT classified as
NotFound: FindByID returns a fresh `fmt.Errorf` rather than (wrapping) the
repository `ErrDriverNotFound` sentinel, so both the service's and the
handler's `errors.Is` branches miss and the error surfaces as an
unclassified 500 instead of 404. -/
theorem C5_delete_missing_not_notfound (st : Store) (id : Nat)
    (h : ∀ o ∈ st, o.id ≠ id) :
    ∃ e, driverService.DeleteDriver st id = (.error e, st) ∧
      errorsIs e GoErr.svcErrDriverNotFound = false ∧
      DriverHandler.deleteStatus e = 500 := by
  have hnone : (st.find? fun o => o.id == id) = none :=
    List.find?_eq_none.mpr (fun o ho => by simpa using h o ho)
  refine ⟨.wrap "failed to find driver"
    (.errNew ("driver with ID " ++ toString id ++ " not found")), ?_, rfl, rfl⟩
  simp [driverService.DeleteDriver, MongoDriverRepository.FindByID, hnone,
    errorsIs]

/-- Witness for C5 at a concrete input: deleting id 3 from the empty
store. -/
theorem C5_delete_missing_not_notfound_witness :
    ∃ e, driverService.DeleteDriver [] 3 = (.error e, []) ∧
      errorsIs e GoErr.svcErrDriverNotFound = false ∧
      DriverHandler.deleteStatus e = 500 :=
  C5_delete_missing_not_notfound [] 3 (by simp)

/-! ## C7 -/

/-- C7: out-of-range coordinates and an invalid non-empty taxi category do
make FindNearbyDrivers fail before any repository query (the error is the
same for every store), but the errors are fresh `errors.New` values, not
the `ErrInvalidLocation` / `ErrInvalidTaxiType` sentinels, so the
handler's `errors.Is` classification misses and both failures surface as
unclassified 500s instead of 400s. -/
theorem C7_nearby_invalid_unclassified (dist : Location → Location → ℚ) :
    ∃ e1 e2,
      (∀ st : Store,
        driverService.FindNearbyDrivers dist st 200 29 "" = .error e1) ∧
      errorsIs e1 GoErr.svcErrInvalidLocation = false ∧
      DriverHandler.nearbyStatus e1 = 500 ∧
      (∀ st : Store,
        driverService.FindNearbyDrivers dist st 41 29 "gold" = .error e2) ∧
      errorsIs e2 GoErr.svcErrInvalidTaxiType = false ∧
      DriverHandler.nearbyStatus e2 = 500 :=
  ⟨.errNew "invalid latitude: must be between -90 and 90",
   .errNew "invalid taxi type: gold (must be one of: sari, turkuaz, siyah)",
   fun _ => rfl, rfl, rfl, fun _ => rfl, rfl, rfl⟩

/-! ## C10 -/

/-- C10: a non-empty invalid taxi category never fails the repository
query and never filters: FindNearby behaves exactly as with no category,
while only the service layer rejects the value. -/
theorem C10_repo_ignores_invalid_taxi (dist : Location → Location → ℚ)
    (st : Store) (lat lon radiusKm : ℚ) (t : String)
    (hne : t ≠ "") (hinv : IsValidTaxiType t = false) :
    MongoDriverRepository.FindNearby dist st lat lon radiusKm t
      = MongoDriverRepository.FindNearby dist st lat lon radiusKm "" ∧
    (-90 ≤ lat → lat ≤ 90 → -180 ≤ lon → lon ≤ 180 → 0 < radiusKm →
      ∃ res, MongoDriverRepository.FindNearby dist st lat lon radiusKm t
        = .ok res) ∧
    (∃ e, driverService.FindNearbyDrivers dist st lat lon t = .error e) := by
  have hcond : (t != "" && IsValidTaxiType t) = false := by simp [hinv]
  refine ⟨?_, ?_, ?_⟩
  · simp [MongoDriverRepository.FindNearby, hcond]
  · intro h1 h2 h3 h4 h5
    have c1 : ¬(lat < -90 ∨ lat > 90) := by rintro (h | h) <;> linarith
    have c2 : ¬(lon < -180 ∨ lon > 180) := by rintro (h | h) <;> linarith
    have c3 : ¬(radiusKm ≤ 0) := not_le.mpr h5
    refine ⟨((geoNear dist st ⟨lat, lon⟩ (radiusKm * 1000)).take 50).map
      (fun p => (p.1, p.2 / 1000)), ?_⟩
    simp only [MongoDriverRepository.FindNearby, if_neg c1, if_neg c2,
      if_neg c3, hcond, Bool.false_eq_true, if_false]
  · by_cases hl : lat < -90 ∨ lat > 90
    · refine ⟨.errNew "invalid latitude: must be between -90 and 90", ?_⟩
      simp only [driverService.FindNearbyDrivers, if_pos hl]
    · by_cases ho : lon < -180 ∨ lon > 180
      · refine ⟨.errNew "invalid longitude: must be between -180 and 180", ?_⟩
        simp only [driverService.FindNearbyDrivers, if_neg hl, if_pos ho]
      · have hcond2 : (t != "" && !IsValidTaxiType t) = true := by
          simp [hinv, hne]
        refine ⟨.errNew ("invalid taxi type: " ++ t ++
          " (must be one of: sari, turkuaz, siyah)"), ?_⟩
        simp only [driverService.FindNearbyDrivers, if_neg hl, if_neg ho,
          hcond2, if_true]

/-- Witness for C10 at a concrete input: category `"gold"` with a valid
query point and the fixed radius. -/
theorem C10_repo_ignores_invalid_taxi_witness :
    MongoDriverRepository.FindNearby (fun _ _ => 0) [] 41 29 5 "gold"
      = MongoDriverRepository.FindNearby (fun _ _ => 0) [] 41 29 5 "" ∧
    (-90 ≤ (41 : ℚ) → (41 : ℚ) ≤ 90 → -180 ≤ (29 : ℚ) → (29 : ℚ) ≤ 180 →
      0 < (5 : ℚ) →
      ∃ res, MongoDriverRepository.FindNearby (fun _ _ => 0) [] 41 29 5 "gold"
        = .ok res) ∧
    (∃ e, driverService.FindNearbyDrivers (fun _ _ => 0) [] 41 29 "gold"
      = .error e) :=
  C10_repo_ignores_invalid_taxi (fun _ _ => 0) [] 41 29 5 "gold"
    (by decide) rfl

/-! ## C8 -/

/-- A page slice of the store is sorted by creation time descending. -/
theorem pairwise_page (st : Store) (k m : Nat) :
    List.Pairwise (fun a b => b.createdAt ≤ a.createdAt)
      (((st.mergeSort byCreatedDesc).drop k).take m) := by
  have hs : List.Pairwise (fun a b => byCreatedDesc a b = true)
      (st.mergeSort byCreatedDesc) :=
    List.sorted_mergeSort
      (by intro a b c hab hbc
          simp only [byCreatedDesc, decide_eq_true_eq] at *
          omega)
      (by intro a b
          simp only [byCreatedDesc, Bool.or_eq_true, decide_eq_true_eq]
          omega)
      st
  have hsub : (((st.mergeSort byCreatedDesc).drop k).take m).Sublist
      (st.mergeSort byCreatedDesc) :=
    (List.take_sublist _ _).trans (List.drop_sublist _ _)
  exact (hs.sublist hsub).imp (fun h => by simpa [byCreatedDesc] using h)

/-- The page returned by FindAll: bounded by the normalized page size,
sorted newest-created first, and counted against the whole collection. -/
theorem FindAll_spec (st : Store) (page pageSize : Int) :
    (MongoDriverRepository.FindAll st page pageSize).1.length
      ≤ (if pageSize < 1 then 10
         else if pageSize > 100 then 100 else pageSize).toNat ∧
    List.Pairwise (fun a b => b.createdAt ≤ a.createdAt)
      (MongoDriverRepository.FindAll st page pageSize).1 ∧
    (MongoDriverRepository.FindAll st page pageSize).2 = st.length := by
  refine ⟨?_, ?_, rfl⟩
  · exact List.length_take_le _ _
  · exact pairwise_page st _ _

/-- C8 counterexample: the claim says pageSize is normalized into [1,100]
by clamping, which would send 0 to 1; the code replaces a pageSize below 1
by the default 10 instead. -/
theorem C8_pageSize_zero_not_clamped :
    (driverService.ListDrivers [] 1 0).pageSize = 10 ∧ (10 : Int) ≠ 1 :=
  ⟨rfl, by decide⟩

/-- C8 as amended: ListDrivers never rejects; page is normalized to a
minimum of 1; a pageSize above 100 is clamped to 100 while a pageSize
below 1 becomes the default 10 (so the normalized pageSize always lies in
[1,100]); the page holds at most 100 drivers; and the page is ordered
newest-created first. -/
theorem C8_list_normalization (st : Store) (page pageSize : Int) :
    (driverService.ListDrivers st page pageSize).page
        = (if page < 1 then 1 else page) ∧
    (driverService.ListDrivers st page pageSize).pageSize
        = (if pageSize < 1 then 10
           else if pageSize > 100 then 100 else pageSize) ∧
    1 ≤ (driverService.ListDrivers st page pageSize).pageSize ∧
    (driverService.ListDrivers st page pageSize).pageSize ≤ 100 ∧
    (driverService.ListDrivers st page pageSize).data.length ≤ 100 ∧
    List.Pairwise (fun a b => b.createdAt ≤ a.createdAt)
      (driverService.ListDrivers st page pageSize).data := by
  obtain ⟨hlen, hpair, -⟩ := FindAll_spec st (if page < 1 then 1 else page)
    (if pageSize < 1 then 10 else if pageSize > 100 then 100 else pageSize)
  refine ⟨rfl, rfl, ?_, ?_, ?_, hpair⟩
  · show (1 : Int) ≤ (if pageSize < 1 then 10
      else if pageSize > 100 then 100 else pageSize)
    split_ifs <;> omega
  · show (if pageSize < 1 then 10
      else if pageSize > 100 then 100 else pageSize) ≤ (100 : Int)
    split_ifs <;> omega
  · refine le_trans hlen ?_
    rw [Int.toNat_le]
    split_ifs <;> omega

/-! ## C9 -/

/-- The page size times the ceiling page count covers the collection. -/
theorem le_mul_ceil (L n : Nat) (hn : 0 < n) : L ≤ ((L + n - 1) / n) * n := by
  have h := le_smul_ceilDiv (b := L) hn
  rw [Nat.mul_comm]
  simpa [Nat.ceilDiv_eq_add_pred_div, smul_eq_mul] using h

/-- A page entirely beyond the ceiling page count is empty. -/
theorem FindAll_beyond (st : Store) (page pageSize : Int)
    (h1 : 1 ≤ page) (h2 : 1 ≤ pageSize) (h3 : pageSize ≤ 100)
    (hb : (st.length + pageSize.toNat - 1) / pageSize.toNat < page.toNat) :
    (MongoDriverRepository.FindAll st page pageSize).1 = [] := by
  have e1 : (if page < 1 then 1 else page) = page := if_neg (not_lt.mpr h1)
  have e2 : (if pageSize < 1 then 10
      else if pageSize > 100 then 100 else pageSize) = pageSize := by
    rw [if_neg (not_lt.mpr h2), if_neg (not_lt.mpr h3)]
  have hnN : 0 < pageSize.toNat := by omega
  have hceil := le_mul_ceil st.length pageSize.toNat hnN
  have e3 : (page - 1) * pageSize
      = (((page.toNat - 1) * pageSize.toNat : Nat) : Int) := by
    push_cast [Nat.cast_sub (show 1 ≤ page.toNat by omega)]
    rw [Int.toNat_of_nonneg (by omega : (0 : Int) ≤ page),
      Int.toNat_of_nonneg (by omega : (0 : Int) ≤ pageSize)]
  have hlen : (st.mergeSort byCreatedDesc).length
      ≤ ((page - 1) * pageSize).toNat := by
    rw [List.length_mergeSort, e3, Int.toNat_natCast]
    exact le_trans hceil
      (Nat.mul_le_mul_right pageSize.toNat (by omega))
  simp only [MongoDriverRepository.FindAll, e1, e2]
  rw [List.drop_eq_nil_iff.mpr hlen, List.take_nil]

/-- C9: totalPages is the ceiling of totalCount over the normalized page
size, and a page number beyond totalPages yields an empty page, not an
error (ListDrivers is total). -/
theorem C9_total_pages (st : Store) (page pageSize : Int) :
    (driverService.ListDrivers st page pageSize).totalPages
      = ((driverService.ListDrivers st page pageSize).totalCount
          + (driverService.ListDrivers st page pageSize).pageSize.toNat - 1)
        / (driverService.ListDrivers st page pageSize).pageSize.toNat ∧
    (((driverService.ListDrivers st page pageSize).totalPages : Int)
        < (if page < 1 then 1 else page) →
      (driverService.ListDrivers st page pageSize).data = []) := by
  refine ⟨rfl, ?_⟩
  intro h
  set np := (if page < 1 then 1 else page) with hnp
  set ns := (if pageSize < 1 then 10
    else if pageSize > 100 then 100 else pageSize) with hns
  have h1 : (1 : Int) ≤ np := by rw [hnp]; split_ifs <;> omega
  have h2 : (1 : Int) ≤ ns := by rw [hns]; split_ifs <;> omega
  have h3 : ns ≤ (100 : Int) := by rw [hns]; split_ifs <;> omega
  have hb : (st.length + ns.toNat - 1) / ns.toNat < np.toNat := by
    have h' : (((st.length + ns.toNat - 1) / ns.toNat : Nat) : Int) < np := h
    omega
  exact FindAll_beyond st np ns h1 h2 h3 hb

/-- Witness for C9 at a concrete input: the empty store with page 5 and
page size 2, a page far beyond the zero total pages. -/
theorem C9_total_pages_witness :
    (driverService.ListDrivers [] 5 2).totalPages
      = ((driverService.ListDrivers [] 5 2).totalCount
          + (driverService.ListDrivers [] 5 2).pageSize.toNat - 1)
        / (driverService.ListDrivers [] 5 2).pageSize.toNat ∧
    (((driverService.ListDrivers [] 5 2).totalPages : Int)
        < (if (5 : Int) < 1 then 1 else 5) →
      (driverService.ListDrivers [] 5 2).data = []) :=
  C9_total_pages [] 5 2

/-! ## C6 -/

/-- The geoNear stage output is sorted ascending by the distance field. -/
theorem geoNear_pairwise (dist : Location → Location → ℚ) (st : Store)
    (center : Location) (M : ℚ) :
    List.Pairwise (fun (a b : Driver × ℚ) => a.2 ≤ b.2)
      (geoNear dist st center M) := by
  have hs : List.Pairwise
      (fun (a b : Driver × ℚ) => (decide (a.2 ≤ b.2)) = true)
      (geoNear dist st center M) :=
    List.sorted_mergeSort
      (by intro a b c hab hbc
          simp only [decide_eq_true_eq] at *
          exact le_trans hab hbc)
      (by intro a b
          simp only [Bool.or_eq_true, decide_eq_true_eq]
          exact le_total a.2 b.2)
      _
  exact hs.imp (fun h => by simpa using h)

/-- Every geoNear entry comes from a stored driver, carries exactly its
distance from the query point, and lies within the radius. -/
theorem geoNear_mem (dist : Location → Location → ℚ) (st : Store)
    (center : Location) (M : ℚ) (p : Driver × ℚ)
    (hp : p ∈ geoNear dist st center M) :
    p.1 ∈ st ∧ p.2 = dist p.1.location center ∧ p.2 ≤ M := by
  unfold geoNear at hp
  rw [List.mem_mergeSort, List.mem_filter] at hp
  obtain ⟨hmem, hle⟩ := hp
  rw [List.mem_map] at hmem
  obtain ⟨d, hd, rfl⟩ := hmem
  exact ⟨hd, rfl, by simpa using hle⟩

/-- The repository FindNearby on valid inputs: the full pipeline value. -/
theorem FindNearby_ok (dist : Location → Location → ℚ) (st : Store)
    (lat lon radiusKm : ℚ) (t : String)
    (c1 : ¬(lat < -90 ∨ lat > 90)) (c2 : ¬(lon < -180 ∨ lon > 180))
    (c3 : ¬(radiusKm ≤ 0)) :
    MongoDriverRepository.FindNearby dist st lat lon radiusKm t =
      .ok (((if (t != "" && IsValidTaxiType t) = true then
          (geoNear dist st ⟨lat, lon⟩ (radiusKm * 1000)).filter
            (fun p => p.1.taxiType == t)
        else geoNear dist st ⟨lat, lon⟩ (radiusKm * 1000)).take 50).map
        (fun p => (p.1, p.2 / 1000))) := by
  simp only [MongoDriverRepository.FindNearby, if_neg c1, if_neg c2, if_neg c3]

/-- C6: with an in-range query point and a valid (or empty) category,
FindNearbyDrivers succeeds, equals the repository query at the fixed 5 km
radius, returns at most 50 entries, reports each distance in kilometers
(the meter distance divided by 1000, hence at most 5), orders entries by
ascending distance, gives distance 0 to a driver located exactly at the
query point, and places every such driver before any driver at positive
distance. -/
theorem C6_find_nearby_contract (dist : Location → Location → ℚ)
    (st : Store) (lat lon : ℚ) (taxiType : String)
    (hd0 : ∀ p, dist p p = 0)
    (hlat1 : -90 ≤ lat) (hlat2 : lat ≤ 90)
    (hlon1 : -180 ≤ lon) (hlon2 : lon ≤ 180)
    (htype : taxiType = "" ∨ IsValidTaxiType taxiType = true) :
    ∃ res, driverService.FindNearbyDrivers dist st lat lon taxiType
        = .ok res ∧
      driverService.FindNearbyDrivers dist st lat lon taxiType
        = MongoDriverRepository.FindNearby dist st lat lon 5 taxiType ∧
      res.length ≤ 50 ∧
      (∀ p ∈ res, p.2 = dist p.1.location ⟨lat, lon⟩ / 1000) ∧
      (∀ p ∈ res, p.2 ≤ 5) ∧
      List.Pairwise (fun (a b : Driver × ℚ) => a.2 ≤ b.2) res ∧
      (∀ p ∈ res, p.1.location = Location.mk lat lon → p.2 = 0) ∧
      (∀ i j (hi : i < res.length) (hj : j < res.length),
        (res.get ⟨i, hi⟩).1.location = Location.mk lat lon →
        0 < (res.get ⟨j, hj⟩).2 → i < j) := by
  have c1 : ¬(lat < -90 ∨ lat > 90) := by rintro (h | h) <;> linarith
  have c2 : ¬(lon < -180 ∨ lon > 180) := by rintro (h | h) <;> linarith
  have c3 : ¬((5 : ℚ) ≤ 0) := by norm_num
  have hcond : (taxiType != "" && !IsValidTaxiType taxiType) = false := by
    rcases htype with h | h <;> simp [h]
  have hrepo := FindNearby_ok dist st lat lon 5 taxiType c1 c2 c3
  set stage2 := (if (taxiType != "" && IsValidTaxiType taxiType) = true then
      (geoNear dist st ⟨lat, lon⟩ (5 * 1000)).filter
        (fun p => p.1.taxiType == taxiType)
    else geoNear dist st ⟨lat, lon⟩ (5 * 1000)) with hs2
  set res := (stage2.take 50).map (fun p => (p.1, p.2 / 1000)) with hresdef
  have hserv : driverService.FindNearbyDrivers dist st lat lon taxiType
      = .ok res := by
    simp only [driverService.FindNearbyDrivers, if_neg c1, if_neg c2, hcond,
      Bool.false_eq_true, if_false, hrepo]
  have hsub2 : stage2.Sublist (geoNear dist st ⟨lat, lon⟩ (5 * 1000)) := by
    rw [hs2]
    split
    · exact List.filter_sublist _
    · exact List.Sublist.refl _
  have hmemq : ∀ q ∈ stage2.take 50,
      q.2 = dist q.1.location ⟨lat, lon⟩ ∧ q.2 ≤ 5 * 1000 := by
    intro q hq
    have hq1 : q ∈ geoNear dist st ⟨lat, lon⟩ (5 * 1000) :=
      hsub2.subset (List.take_subset _ _ hq)
    obtain ⟨-, hdist, hle⟩ := geoNear_mem dist st ⟨lat, lon⟩ (5 * 1000) q hq1
    exact ⟨hdist, hle⟩
  have hmemres : ∀ p ∈ res,
      p.2 = dist p.1.location ⟨lat, lon⟩ / 1000 ∧ p.2 ≤ 5 := by
    intro p hp
    rw [hresdef, List.mem_map] at hp
    obtain ⟨q, hq, rfl⟩ := hp
    obtain ⟨hdist, hle⟩ := hmemq q hq
    constructor
    · simpa using congrArg (fun x => x / (1000 : ℚ)) hdist
    · simp only
      linarith
  have hzero : ∀ p ∈ res, p.1.location = Location.mk lat lon → p.2 = 0 := by
    intro p hp hploc
    have h1 := (hmemres p hp).1
    rw [h1, hploc, hd0]
    norm_num
  have hpw : List.Pairwise (fun (a b : Driver × ℚ) => a.2 ≤ b.2) res := by
    rw [hresdef]
    refine List.pairwise_map.mpr ?_
    have h3 : (stage2.take 50).Sublist
        (geoNear dist st ⟨lat, lon⟩ (5 * 1000)) :=
      (List.take_sublist _ _).trans hsub2
    exact ((geoNear_pairwise dist st ⟨lat, lon⟩ (5 * 1000)).sublist h3).imp
      (fun h => by simp only; linarith)
  refine ⟨res, hserv, hserv.trans hrepo.symm, ?_,
    fun p hp => (hmemres p hp).1, fun p hp => (hmemres p hp).2, hpw, hzero,
    ?_⟩
  · rw [hresdef, List.length_map]
    exact List.length_take_le _ _
  · intro i j hi hj hloc hpos
    by_contra hij
    push_neg at hij
    have hzi : (res.get ⟨i, hi⟩).2 = 0 :=
      hzero _ (List.get_mem res i hi) hloc
    rcases Nat.lt_or_ge j i with hlt | hge
    · have hle := (List.pairwise_iff_get.mp hpw) ⟨j, hj⟩ ⟨i, hi⟩ hlt
      rw [hzi] at hle
      linarith
    · have : i = j := le_antisymm hge hij
      subst this
      rw [hzi] at hpos
      linarith

/-- Witness for C6 at a concrete input: the identically-zero distance on
the empty store at a valid query point with no category filter. -/
theorem C6_find_nearby_contract_witness :
    ∃ res, driverService.FindNearbyDrivers (fun _ _ => 0) [] 41 29 ""
        = .ok res ∧
      driverService.FindNearbyDrivers (fun _ _ => 0) [] 41 29 ""
        = MongoDriverRepository.FindNearby (fun _ _ => 0) [] 41 29 5 "" ∧
      res.length ≤ 50 ∧
      (∀ p ∈ res, p.2 = (fun (_ _ : Location) => (0 : ℚ)) p.1.location
        ⟨41, 29⟩ / 1000) ∧
      (∀ p ∈ res, p.2 ≤ 5) ∧
      List.Pairwise (fun (a b : Driver × ℚ) => a.2 ≤ b.2) res ∧
      (∀ p ∈ res, p.1.location = Location.mk 41 29 → p.2 = 0) ∧
      (∀ i j (hi : i < res.length) (hj : j < res.length),
        (res.get ⟨i, hi⟩).1.location = Location.mk 41 29 →
        0 < (res.get ⟨j, hj⟩).2 → i < j) :=
  C6_find_nearby_contract (fun _ _ => 0) [] 41 29 ""
    (fun _ => rfl)
    (by norm_num) (by norm_num) (by norm_num) (by norm_num) (Or.inl rfl)

end TaksiHub
